import Mathlib

/-!
Verification of the route-playback engine of `src/components/VehicleMap.tsx`
(map-motion-explorer).  The component's playback logic is embedded shallowly:
the React state variables become the fields of `EngineState`, the event
handlers (`handlePlay`, `handlePause`, `handleReset`) and the `setInterval`
callback (`tick`) become functions on that state, and `calculateDistance`
is transcribed literally (with `Math.atan2` modelled by `atan2` below).
-/

namespace MapMotion

/-- A point of the recorded route, mirroring the `RoutePoint` interface of
`VehicleMap.tsx` (`latitude`, `longitude`, `timestamp`).  The component keeps
the timestamp as an ISO-8601 string and always consumes it through
`new Date(...).getTime()`; we embed that parsed value directly, an
epoch-millisecond integer. -/
structure RoutePoint where
  latitude : ℝ
  longitude : ℝ
  timestamp : ℤ

instance : Inhabited RoutePoint := ⟨⟨0, 0, 0⟩⟩

/-- Playback status.  The component stores a single boolean `isPlaying`;
`Playing` corresponds to `isPlaying = true`.  The two ways `isPlaying`
becomes false are kept apart, exactly as the spec's state machine does:
the completing branch of the interval callback (the one that fires the
"Route completed!" toast) yields `Completed`, while `handlePause` and
`handleReset` yield `Stopped`.  No handler in the component branches on
this distinction (`handlePlay` tests only `currentIndex`), so every
transition below projects to the source's boolean via
`isPlaying = (status = Playing)`. -/
inductive Status where
  | Stopped : Status
  | Playing : Status
  | Completed : Status
  deriving DecidableEq

/-- The playback-related React state of `VehicleMap`:
`currentIndex`, `isPlaying` (refined into `status`, see `Status`), `speed`,
`elapsedTime`, `currentPosition`, and the coordinates currently written to
the map's `active-route` source (pairs `(longitude, latitude)`, matching
`point => [point.longitude, point.latitude]`). -/
structure EngineState where
  currentIndex : ℕ
  status : Status
  speed : ℝ
  elapsedTime : ℤ
  currentPosition : Option RoutePoint
  activePath : List (ℝ × ℝ)

/-- JavaScript's `Math.atan2` on the reals (total, by case split on signs;
only the `x > 0` and `x = 0, y > 0` branches are ever reached from
`calculateDistance`, whose arguments are square roots). -/
noncomputable def atan2 (y x : ℝ) : ℝ :=
  if 0 < x then Real.arctan (y / x)
  else if x < 0 ∧ 0 ≤ y then Real.arctan (y / x) + Real.pi
  else if x < 0 ∧ y < 0 then Real.arctan (y / x) - Real.pi
  else if x = 0 ∧ 0 < y then Real.pi / 2
  else if x = 0 ∧ y < 0 then -(Real.pi / 2)
  else 0

/-- Literal transcription of `calculateDistance(lat1, lon1, lat2, lon2)`:
haversine with `R = 6371` km, result scaled to meters. -/
noncomputable def calculateDistance (lat1 lon1 lat2 lon2 : ℝ) : ℝ :=
  let R : ℝ := 6371
  let dLat := (lat2 - lat1) * Real.pi / 180
  let dLon := (lon2 - lon1) * Real.pi / 180
  let a := Real.sin (dLat / 2) * Real.sin (dLat / 2) +
    Real.cos (lat1 * Real.pi / 180) * Real.cos (lat2 * Real.pi / 180) *
    Real.sin (dLon / 2) * Real.sin (dLon / 2)
  let c := 2 * atan2 (Real.sqrt a) (Real.sqrt (1 - a))
  R * c * 1000

/-- JavaScript's `Math.round` on the reals: half-up, i.e. `⌊x + 1/2⌋`. -/
noncomputable def jsRound (x : ℝ) : ℤ := ⌊x + 1 / 2⌋

/-- JavaScript's `Math.round` restricted to rational inputs (used for the
elapsed-time computation, whose inputs are integer millisecond timestamps). -/
def jsRoundQ (x : ℚ) : ℤ := ⌊x + 1 / 2⌋

/-- The body of the `setInterval` callback (the "Vehicle movement simulation"
effect): advance `currentIndex`, or complete when the next index runs off the
end; on an advance, update the marker position, the active path
(`routeData.slice(0, nextIndex + 1)`), the speed (distance over the segment's
time delta, times 3.6, rounded to 2 decimals), and the elapsed seconds. -/
noncomputable def tick (route : List RoutePoint) (s : EngineState) : EngineState :=
  let nextIndex := s.currentIndex + 1
  if route.length ≤ nextIndex then
    { s with status := Status.Completed }
  else
    let currentPoint := route.getD nextIndex default
    let activeCoordinates := (route.take (nextIndex + 1)).map fun p => (p.longitude, p.latitude)
    let newSpeed :=
      if 0 < nextIndex then
        let prevPoint := route.getD (nextIndex - 1) default
        let timeDiff : ℝ := ((currentPoint.timestamp - prevPoint.timestamp : ℤ) : ℝ) / 1000
        let distance := calculateDistance prevPoint.latitude prevPoint.longitude
          currentPoint.latitude currentPoint.longitude
        let calculatedSpeed := distance / timeDiff * 3.6
        ((jsRound (calculatedSpeed * 100) : ℤ) : ℝ) / 100
      else s.speed
    let startTime := (route.getD 0 default).timestamp
    let newElapsed := jsRoundQ (((currentPoint.timestamp - startTime : ℤ) : ℚ) / 1000)
    { currentIndex := nextIndex, status := s.status, speed := newSpeed,
      elapsedTime := newElapsed, currentPosition := some currentPoint,
      activePath := activeCoordinates }

/-- `handleReset`: stop playing, zero the counters, and (for a non-empty
route) republish the starting position and an empty active path. -/
noncomputable def handleReset (route : List RoutePoint) (s : EngineState) : EngineState :=
  let s1 := { s with status := Status.Stopped, currentIndex := 0, elapsedTime := 0, speed := 0 }
  if 0 < route.length then
    { s1 with currentPosition := some (route.getD 0 default), activePath := [] }
  else
    s1

/-- `handlePlay`: `if (currentIndex >= routeData.length - 1) handleReset();`
then `setIsPlaying(true)`.  The comparison is over JavaScript numbers, so the
`length - 1` is signed (`-1` for the empty route). -/
noncomputable def handlePlay (route : List RoutePoint) (s : EngineState) : EngineState :=
  let s1 := if (route.length : ℤ) - 1 ≤ (s.currentIndex : ℤ) then handleReset route s else s
  { s1 with status := Status.Playing }

/-- `handlePause`: `setIsPlaying(false)`. -/
def handlePause (s : EngineState) : EngineState :=
  { s with status := Status.Stopped }

/-- The interval of the "Vehicle movement simulation" effect exists exactly
when `isPlaying && routeData.length > 0`; ticks can only fire while it does. -/
def tickSourceActive (route : List RoutePoint) (s : EngineState) : Prop :=
  s.status = Status.Playing ∧ 0 < route.length

/-- The state right after the route loads: the `useState` initial values
(`currentIndex = 0`, not playing, `speed = 0`, `elapsedTime = 0`), with
`currentPosition` set to `data[0]` when the payload is non-empty, and the
map's `active-route` source initialised with an empty coordinate list. -/
noncomputable def initState (route : List RoutePoint) : EngineState :=
  { currentIndex := 0, status := Status.Stopped, speed := 0, elapsedTime := 0,
    currentPosition := if 0 < route.length then some (route.getD 0 default) else none,
    activePath := [] }

/-- The spec's DistanceCalculator contract, written from its words: distance
"computed via the haversine formula with Earth radius 6371 km, returned in
meters", in the textbook arcsine form of the haversine formula.  Used to
check that `calculateDistance` (which uses the `atan2` form) refines it. -/
noncomputable def specHaversineMeters (lat1 lon1 lat2 lon2 : ℝ) : ℝ :=
  let phi1 := lat1 * Real.pi / 180
  let phi2 := lat2 * Real.pi / 180
  let dphi := (lat2 - lat1) * Real.pi / 180
  let dlam := (lon2 - lon1) * Real.pi / 180
  let h := Real.sin (dphi / 2) ^ 2 +
    Real.cos phi1 * Real.cos phi2 * Real.sin (dlam / 2) ^ 2
  2 * 6371 * Real.arcsin (Real.sqrt h) * 1000

/-- Two sample points used to instantiate the claims on concrete routes. -/
def pA : RoutePoint := ⟨0, 0, 0⟩

/-- Second sample point, one second after `pA`. -/
def pB : RoutePoint := ⟨0, 0, 1000⟩

/-- A concrete one-point route. -/
def routeOne : List RoutePoint := [pA]

/-- A concrete two-point route. -/
def routeTwo : List RoutePoint := [pA, pB]

/-- A concrete state paused at the last index of `routeTwo`. -/
def stateAtLast : EngineState :=
  { currentIndex := 1, status := Status.Stopped, speed := 0, elapsedTime := 1,
    currentPosition := some pB, activePath := [(0, 0), (0, 0)] }

/-- A concrete state playing at index 0. -/
def playingAtZero : EngineState :=
  { currentIndex := 0, status := Status.Playing, speed := 0, elapsedTime := 0,
    currentPosition := some pA, activePath := [] }

/-- Key identity behind the two forms of the haversine formula: on square
roots, the `atan2` form agrees with the arcsine form for every real
argument (Mathlib's total `sqrt`/`arcsin` make this unconditional). -/
theorem atan2_sqrt_eq_arcsin (a : ℝ) :
    atan2 (Real.sqrt a) (Real.sqrt (1 - a)) = Real.arcsin (Real.sqrt a) := by
  rcases le_or_lt a 0 with hle | hpos
  · have hsa : Real.sqrt a = 0 := Real.sqrt_eq_zero'.mpr hle
    have h1a : 0 < Real.sqrt (1 - a) := Real.sqrt_pos.mpr (by linarith)
    rw [hsa, atan2, if_pos h1a, zero_div, Real.arctan_zero, Real.arcsin_zero]
  · rcases lt_or_le a 1 with hlt | hge
    · have h1a : 0 < Real.sqrt (1 - a) := Real.sqrt_pos.mpr (by linarith)
      have hsa0 : 0 ≤ Real.sqrt a := Real.sqrt_nonneg a
      have hsa1 : Real.sqrt a < 1 := by
        rw [Real.sqrt_lt' one_pos]
        nlinarith
      rw [atan2, if_pos h1a,
        Real.arcsin_eq_arctan ⟨by linarith, hsa1⟩, Real.sq_sqrt hpos.le]
    · have h1a : Real.sqrt (1 - a) = 0 := Real.sqrt_eq_zero'.mpr (by linarith)
      have hsa : 1 ≤ Real.sqrt a := by
        rw [Real.le_sqrt zero_le_one (by linarith)]
        nlinarith
      rw [atan2, h1a, Real.arcsin_of_one_le hsa]
      have hy : 0 < Real.sqrt a := by linarith
      simp [lt_irrefl, hy]

/-- The source's `calculateDistance` computes exactly the spec's haversine
distance in meters. -/
theorem calculateDistance_eq_specHaversine (lat1 lon1 lat2 lon2 : ℝ) :
    calculateDistance lat1 lon1 lat2 lon2 = specHaversineMeters lat1 lon1 lat2 lon2 := by
  simp only [calculateDistance, specHaversineMeters]
  have hab :
      Real.sin ((lat2 - lat1) * Real.pi / 180 / 2) * Real.sin ((lat2 - lat1) * Real.pi / 180 / 2) +
        Real.cos (lat1 * Real.pi / 180) * Real.cos (lat2 * Real.pi / 180) *
        Real.sin ((lon2 - lon1) * Real.pi / 180 / 2) * Real.sin ((lon2 - lon1) * Real.pi / 180 / 2) =
      Real.sin ((lat2 - lat1) * Real.pi / 180 / 2) ^ 2 +
        Real.cos (lat1 * Real.pi / 180) * Real.cos (lat2 * Real.pi / 180) *
        Real.sin ((lon2 - lon1) * Real.pi / 180 / 2) ^ 2 := by
    ring
  rw [hab, atan2_sqrt_eq_arcsin]
  ring

/-- C1: for a non-empty route, `play` issued while the status is `Completed`
or the cursor sits at the last index first performs the implicit reset
(cursor 0, elapsed 0, speed 0) and then starts `Playing`; from any other
cursor position `play` only switches the status to `Playing`, leaving
cursor, speed and elapsed time untouched. -/
theorem play_after_completion_resets (route : List RoutePoint) (s : EngineState)
    (hne : 0 < route.length) (hcur : s.currentIndex < route.length)
    (hinv : s.status = Status.Completed → s.currentIndex + 1 = route.length) :
    ((s.status = Status.Completed ∨ s.currentIndex = route.length - 1) →
      handlePlay route s =
        { currentIndex := 0, status := Status.Playing, speed := 0, elapsedTime := 0,
          currentPosition := some (route.getD 0 default), activePath := [] })
    ∧ (s.currentIndex + 1 < route.length →
      handlePlay route s = { s with status := Status.Playing }) := by
  constructor
  · intro h
    have hge : (route.length : ℤ) ≤ (s.currentIndex : ℤ) + 1 := by
      rcases h with h | h
      · have := hinv h
        omega
      · omega
    simp [handlePlay, handleReset, hge, hne]
  · intro h2
    have hlt : ¬ ((route.length : ℤ) ≤ (s.currentIndex : ℤ) + 1) := by omega
    simp [handlePlay, hlt]

/-- Witness for C1 at the two-point route, from the state paused at the
last index. -/
theorem play_after_completion_resets_witness :
    ((stateAtLast.status = Status.Completed ∨
        stateAtLast.currentIndex = routeTwo.length - 1) →
      handlePlay routeTwo stateAtLast =
        { currentIndex := 0, status := Status.Playing, speed := 0, elapsedTime := 0,
          currentPosition := some (routeTwo.getD 0 default), activePath := [] })
    ∧ (stateAtLast.currentIndex + 1 < routeTwo.length →
      handlePlay routeTwo stateAtLast = { stateAtLast with status := Status.Playing }) :=
  play_after_completion_resets routeTwo stateAtLast (by decide) (by decide)
    (fun h => Status.noConfusion h)

/-- C2 counterexample: with the empty route, `handlePlay` is not a no-op —
`currentIndex >= routeData.length - 1` compares `0 ≥ -1`, so the handler
runs and the status becomes `Playing`. -/
theorem play_empty_route_cex :
    (handlePlay [] (initState [])).status = Status.Playing := by
  simp [handlePlay, handleReset, initState]

/-- C2 (amended): with the empty route, `play` still transitions the status
to `Playing` (after running the implicit reset, whose position/path branch
is skipped), but the tick interval is never started because the simulation
effect requires `routeData.length > 0`, so no tick ever fires. -/
theorem play_empty_route_amended (s : EngineState) :
    handlePlay [] s =
      { currentIndex := 0, status := Status.Playing, speed := 0, elapsedTime := 0,
        currentPosition := s.currentPosition, activePath := s.activePath }
    ∧ ¬ tickSourceActive [] (handlePlay [] s) := by
  have hge : (-1 : ℤ) ≤ (s.currentIndex : ℤ) := by omega
  constructor
  · simp [handlePlay, handleReset, hge]
  · simp [tickSourceActive]

/-- C3: a tick firing while `Playing` with `cursor + 1 ≥ route.length` on a
non-empty route completes: status becomes `Completed`, the cursor is left
unchanged (hence equal to `route.length - 1`), the tick source is no longer
active, and a further tick would not change the state at all. -/
theorem completion_tick_terminal (route : List RoutePoint) (s : EngineState)
    (hcur : s.currentIndex < route.length) (hp : s.status = Status.Playing)
    (hlast : route.length ≤ s.currentIndex + 1) :
    (tick route s).status = Status.Completed
    ∧ (tick route s).currentIndex = s.currentIndex
    ∧ (tick route s).currentIndex + 1 = route.length
    ∧ ¬ tickSourceActive route (tick route s)
    ∧ tick route (tick route s) = tick route s := by
  have hs : tick route s = { s with status := Status.Completed } := by
    simp [tick, if_pos hlast]
  refine ⟨by rw [hs], by rw [hs], ?_, ?_, ?_⟩
  · rw [hs]
    show s.currentIndex + 1 = route.length
    omega
  · rw [hs]
    simp [tickSourceActive]
  · rw [hs]
    simp [tick, if_pos hlast]

/-- Witness for C3 at the one-point route, playing at index 0. -/
theorem completion_tick_terminal_witness :
    (tick routeOne playingAtZero).status = Status.Completed
    ∧ (tick routeOne playingAtZero).currentIndex = playingAtZero.currentIndex
    ∧ (tick routeOne playingAtZero).currentIndex + 1 = routeOne.length
    ∧ ¬ tickSourceActive routeOne (tick routeOne playingAtZero)
    ∧ tick routeOne (tick routeOne playingAtZero) = tick routeOne playingAtZero :=
  completion_tick_terminal routeOne playingAtZero (by decide) rfl (by decide)

/-- C4: an advancing tick (one that moves the cursor from `i - 1` to `i`)
sets `speedKmh` to the haversine distance in meters between the two points
(Earth radius 6371 km), divided by their timestamp difference in seconds,
times 3.6, rounded to two decimal places. -/
theorem advancing_tick_speed (route : List RoutePoint) (s : EngineState)
    (hadv : s.currentIndex + 1 < route.length) :
    (tick route s).currentIndex = s.currentIndex + 1
    ∧ (tick route s).speed =
      ((jsRound ((specHaversineMeters (route.getD s.currentIndex default).latitude
          (route.getD s.currentIndex default).longitude
          (route.getD (s.currentIndex + 1) default).latitude
          (route.getD (s.currentIndex + 1) default).longitude /
        ((((route.getD (s.currentIndex + 1) default).timestamp -
            (route.getD s.currentIndex default).timestamp : ℤ) : ℝ) / 1000) * 3.6) * 100) : ℤ) :
          ℝ) / 100 := by
  have hguard : ¬ (route.length ≤ s.currentIndex + 1) := by omega
  constructor
  · simp [tick, hguard]
  · simp only [tick, if_neg hguard, Nat.succ_sub_one, Nat.add_sub_cancel]
    rw [calculateDistance_eq_specHaversine]
    simp

/-- Witness for C4 on the two-point route, from index 0. -/
theorem advancing_tick_speed_witness :
    (tick routeTwo playingAtZero).currentIndex = playingAtZero.currentIndex + 1
    ∧ (tick routeTwo playingAtZero).speed =
      ((jsRound ((specHaversineMeters (routeTwo.getD playingAtZero.currentIndex default).latitude
          (routeTwo.getD playingAtZero.currentIndex default).longitude
          (routeTwo.getD (playingAtZero.currentIndex + 1) default).latitude
          (routeTwo.getD (playingAtZero.currentIndex + 1) default).longitude /
        ((((routeTwo.getD (playingAtZero.currentIndex + 1) default).timestamp -
            (routeTwo.getD playingAtZero.currentIndex default).timestamp : ℤ) : ℝ) / 1000) * 3.6)
          * 100) : ℤ) : ℝ) / 100 :=
  advancing_tick_speed routeTwo playingAtZero (by decide)

/-- C5: after an advancing tick, and after a reset from any state whatsoever,
the elapsed seconds equal
`round((timestamp(route[cursor]) - timestamp(route[0])) / 1000)` for the
resulting cursor. -/
theorem elapsed_seconds_invariant (route : List RoutePoint) (s : EngineState) :
    (s.currentIndex + 1 < route.length →
      (tick route s).elapsedTime =
        jsRoundQ ((((route.getD (tick route s).currentIndex default).timestamp -
          (route.getD 0 default).timestamp : ℤ) : ℚ) / 1000))
    ∧ (handleReset route s).elapsedTime =
      jsRoundQ ((((route.getD (handleReset route s).currentIndex default).timestamp -
        (route.getD 0 default).timestamp : ℤ) : ℚ) / 1000) := by
  constructor
  · intro hadv
    have hguard : ¬ (route.length ≤ s.currentIndex + 1) := by omega
    simp [tick, hguard]
  · have hc : (handleReset route s).currentIndex = 0 := by
      unfold handleReset
      split <;> rfl
    have he : (handleReset route s).elapsedTime = 0 := by
      unfold handleReset
      split <;> rfl
    rw [hc, he, sub_self]
    norm_num [jsRoundQ]

/-- Witness for C5: the advancing tick on the two-point route from index 0,
and a reset on the same route from the paused-at-last-index state. -/
theorem elapsed_seconds_invariant_witness :
    (tick routeTwo playingAtZero).elapsedTime =
      jsRoundQ ((((routeTwo.getD (tick routeTwo playingAtZero).currentIndex default).timestamp -
        (routeTwo.getD 0 default).timestamp : ℤ) : ℚ) / 1000)
    ∧ (handleReset routeTwo stateAtLast).elapsedTime =
      jsRoundQ ((((routeTwo.getD (handleReset routeTwo stateAtLast).currentIndex
        default).timestamp - (routeTwo.getD 0 default).timestamp : ℤ) : ℚ) / 1000) :=
  ⟨(elapsed_seconds_invariant routeTwo playingAtZero).1 (by decide),
    (elapsed_seconds_invariant routeTwo stateAtLast).2⟩

/-- C6: on a non-empty route, `reset` from any state yields cursor 0, status
`Stopped`, speed 0, elapsed 0, publishes `route[0]` as the position together
with an empty active path, and leaves the tick source stopped. -/
theorem reset_from_any_state (route : List RoutePoint) (s : EngineState)
    (hne : 0 < route.length) :
    handleReset route s =
      { currentIndex := 0, status := Status.Stopped, speed := 0, elapsedTime := 0,
        currentPosition := some (route.getD 0 default), activePath := [] }
    ∧ ¬ tickSourceActive route (handleReset route s) := by
  have h : handleReset route s =
      { currentIndex := 0, status := Status.Stopped, speed := 0, elapsedTime := 0,
        currentPosition := some (route.getD 0 default), activePath := [] } := by
    simp [handleReset, hne]
  refine ⟨h, ?_⟩
  rw [h]
  simp [tickSourceActive]

/-- Witness for C6 on the one-point route, from the paused-at-last state. -/
theorem reset_from_any_state_witness :
    handleReset routeOne stateAtLast =
      { currentIndex := 0, status := Status.Stopped, speed := 0, elapsedTime := 0,
        currentPosition := some (routeOne.getD 0 default), activePath := [] }
    ∧ ¬ tickSourceActive routeOne (handleReset routeOne stateAtLast) :=
  reset_from_any_state routeOne stateAtLast (by decide)

/-- While the cursor stays in range, iterated ticks advance it one step at a
time and keep the engine `Playing`. -/
theorem tick_iterate_advance (route : List RoutePoint) :
    ∀ (k : ℕ) (s : EngineState), s.status = Status.Playing →
      s.currentIndex + k < route.length →
      ((tick route)^[k] s).currentIndex = s.currentIndex + k
      ∧ ((tick route)^[k] s).status = Status.Playing := by
  intro k
  induction k with
  | zero =>
    intro s hs _
    simpa using hs
  | succ n ih =>
    intro s hs hlt
    have hguard : ¬ (route.length ≤ s.currentIndex + 1) := by omega
    have h1 : (tick route s).currentIndex = s.currentIndex + 1 := by
      simp [tick, hguard]
    have h2 : (tick route s).status = Status.Playing := by
      simp [tick, hguard, hs]
    obtain ⟨ha, hb⟩ := ih (tick route s) h2 (by omega)
    constructor
    · rw [Function.iterate_succ_apply, ha, h1]
      omega
    · rw [Function.iterate_succ_apply]
      exact hb

/-- `handlePlay` leaves the cursor at 0 when issued from the freshly loaded
state (either branch: the implicit reset also lands on 0). -/
theorem handlePlay_init_cursor (route : List RoutePoint) :
    (handlePlay route (initState route)).currentIndex = 0 := by
  simp only [handlePlay]
  split
  · simp only [handleReset]
    split <;> rfl
  · rfl

/-- C7 counterexample: on the concrete two-point route, `route.length - 1 = 1`
tick after `play` from the initial state leaves the engine still `Playing`
(with the cursor on the last index); completion needs one more tick. -/
theorem ticks_len_minus_one_cex :
    ((tick routeTwo)^[routeTwo.length - 1] (handlePlay routeTwo (initState routeTwo))).status
      = Status.Playing := by
  have hlt : ¬ ((routeTwo.length : ℤ) ≤ ((initState routeTwo).currentIndex : ℤ) + 1) := by
    norm_num [routeTwo, initState]
  have hp : handlePlay routeTwo (initState routeTwo)
      = { initState routeTwo with status := Status.Playing } := by
    simp [handlePlay, hlt]
  rw [show routeTwo.length - 1 = 1 from rfl, Function.iterate_one, hp]
  norm_num [tick, routeTwo, initState]

/-- C7 (amended): for every non-empty route, after `play` from the initial
`Stopped` state and `route.length` consecutive ticks (one more than the
claim's `route.length - 1`), the status is `Completed` and the cursor sits
on the last index. -/
theorem route_completes_after_length_ticks (route : List RoutePoint) (hne : 0 < route.length) :
    ((tick route)^[route.length] (handlePlay route (initState route))).status = Status.Completed
    ∧ ((tick route)^[route.length] (handlePlay route (initState route))).currentIndex
      = route.length - 1 := by
  have hc0 : (handlePlay route (initState route)).currentIndex = 0 :=
    handlePlay_init_cursor route
  have hst0 : (handlePlay route (initState route)).status = Status.Playing := rfl
  obtain ⟨ha, hb⟩ := tick_iterate_advance route (route.length - 1)
    (handlePlay route (initState route)) hst0 (by omega)
  have hsplit : (tick route)^[route.length] (handlePlay route (initState route))
      = tick route ((tick route)^[route.length - 1] (handlePlay route (initState route))) := by
    conv_lhs => rw [show route.length = (route.length - 1) + 1 from by omega,
      Function.iterate_succ_apply']
  rw [hsplit]
  have hguard : route.length ≤
      ((tick route)^[route.length - 1] (handlePlay route (initState route))).currentIndex + 1 := by
    omega
  have hdone : tick route ((tick route)^[route.length - 1] (handlePlay route (initState route)))
      = { (tick route)^[route.length - 1] (handlePlay route (initState route)) with
          status := Status.Completed } := by
    simp [tick, hguard]
  rw [hdone]
  exact ⟨rfl, by simpa using by omega⟩

/-- Witness for C7 (amended) on the two-point route. -/
theorem route_completes_after_length_ticks_witness :
    ((tick routeTwo)^[routeTwo.length] (handlePlay routeTwo (initState routeTwo))).status
      = Status.Completed
    ∧ ((tick routeTwo)^[routeTwo.length] (handlePlay routeTwo (initState routeTwo))).currentIndex
      = routeTwo.length - 1 :=
  route_completes_after_length_ticks routeTwo (by decide)

/-- C8 counterexample: on the concrete one-point route, immediately after
`play` the status is `Playing`, not `Completed` — completion only happens on
the first tick. -/
theorem single_point_play_cex :
    (handlePlay routeOne (initState routeOne)).status = Status.Playing
    ∧ Status.Playing ≠ Status.Completed :=
  ⟨rfl, by simp⟩

/-- C8 (amended): on a one-point route, `play` performs the implicit reset
and starts `Playing`; the first tick then completes with the cursor still at
0 and no speed computation (the speed stays 0). -/
theorem single_point_play_amended (route : List RoutePoint) (h1 : route.length = 1) :
    (tick route (handlePlay route (initState route))).status = Status.Completed
    ∧ (tick route (handlePlay route (initState route))).currentIndex = 0
    ∧ (tick route (handlePlay route (initState route))).speed = 0 := by
  have hge : (route.length : ℤ) ≤ ((initState route).currentIndex : ℤ) + 1 := by
    have h0 : (initState route).currentIndex = 0 := rfl
    omega
  have hplay : handlePlay route (initState route) =
      { currentIndex := 0, status := Status.Playing, speed := 0, elapsedTime := 0,
        currentPosition := some (route.getD 0 default), activePath := [] } := by
    simp [handlePlay, handleReset, hge, show 0 < route.length from by omega]
  rw [hplay]
  have hguard : route.length ≤ 0 + 1 := by omega
  simp [tick, hguard]

/-- Witness for C8 (amended) on the one-point route. -/
theorem single_point_play_amended_witness :
    (tick routeOne (handlePlay routeOne (initState routeOne))).status = Status.Completed
    ∧ (tick routeOne (handlePlay routeOne (initState routeOne))).currentIndex = 0
    ∧ (tick routeOne (handlePlay routeOne (initState routeOne))).speed = 0 :=
  single_point_play_amended routeOne (by decide)

/-- C9 counterexample: `play` while already `Playing` is not always a no-op.
On the two-point route, after `play` and one tick the engine is `Playing`
with the cursor on the last index; issuing `play` there performs the
implicit reset and moves the cursor back to 0. -/
theorem play_idempotence_cex :
    (tick routeTwo (handlePlay routeTwo (initState routeTwo))).status = Status.Playing
    ∧ (handlePlay routeTwo (tick routeTwo (handlePlay routeTwo
        (initState routeTwo)))).currentIndex
      ≠ (tick routeTwo (handlePlay routeTwo (initState routeTwo))).currentIndex := by
  have hlt : ¬ ((routeTwo.length : ℤ) ≤ ((initState routeTwo).currentIndex : ℤ) + 1) := by
    norm_num [routeTwo, initState]
  have hp : handlePlay routeTwo (initState routeTwo)
      = { initState routeTwo with status := Status.Playing } := by
    simp [handlePlay, hlt]
  rw [hp]
  set s1 := { initState routeTwo with status := Status.Playing } with hs1
  have hs1c : s1.currentIndex = 0 := rfl
  have hg : ¬ (routeTwo.length ≤ s1.currentIndex + 1) := by
    rw [hs1c]
    norm_num [routeTwo]
  have h2c : (tick routeTwo s1).currentIndex = s1.currentIndex + 1 := by
    simp [tick, hg]
  have h2s : (tick routeTwo s1).status = s1.status := by
    simp [tick, hg]
  refine ⟨by rw [h2s], ?_⟩
  have hge2 : ((routeTwo.length : ℤ) ≤ ((tick routeTwo s1).currentIndex : ℤ) + 1) := by
    rw [h2c, hs1c]
    norm_num [routeTwo]
  have hplay2 : (handlePlay routeTwo (tick routeTwo s1)).currentIndex = 0 := by
    simp [handlePlay, hge2, handleReset,
      show 0 < routeTwo.length from by norm_num [routeTwo]]
  rw [hplay2, h2c, hs1c]
  norm_num

/-- C9 (amended): `pause` when already `Stopped` is a no-op, and `play` when
already `Playing` is a no-op provided the cursor is strictly before the last
index; at the last index, `play` instead performs the implicit reset. -/
theorem pause_play_idempotence (route : List RoutePoint) (s : EngineState) :
    (s.status = Status.Stopped → handlePause s = s)
    ∧ (s.status = Status.Playing → s.currentIndex + 1 < route.length →
        handlePlay route s = s) := by
  constructor
  · intro h
    have hh : handlePause s = { s with status := Status.Stopped } := rfl
    rw [hh, ← h]
  · intro hp hlt
    have hlt2 : ¬ ((route.length : ℤ) ≤ (s.currentIndex : ℤ) + 1) := by omega
    have hh : handlePlay route s = { s with status := Status.Playing } := by
      simp [handlePlay, hlt2]
    rw [hh, ← hp]

/-- Witness for C9 (amended): pause on the freshly loaded (Stopped) state,
and play on a Playing state away from the last index. -/
theorem pause_play_idempotence_witness :
    handlePause (initState routeTwo) = initState routeTwo
    ∧ handlePlay routeTwo playingAtZero = playingAtZero :=
  ⟨(pause_play_idempotence routeTwo (initState routeTwo)).1 rfl,
    (pause_play_idempotence routeTwo playingAtZero).2 rfl (by decide)⟩

/-- C10: the completing tick only flips the status: speed (the value of the
last advancing segment), elapsed seconds, the published position and the
active path, and the cursor are all left unchanged. -/
theorem completion_tick_frame (route : List RoutePoint) (s : EngineState)
    (hlast : route.length ≤ s.currentIndex + 1) :
    tick route s = { s with status := Status.Completed }
    ∧ (tick route s).speed = s.speed
    ∧ (tick route s).elapsedTime = s.elapsedTime
    ∧ (tick route s).currentPosition = s.currentPosition
    ∧ (tick route s).activePath = s.activePath
    ∧ (tick route s).currentIndex = s.currentIndex := by
  have h : tick route s = { s with status := Status.Completed } := by
    simp [tick, hlast]
  rw [h]
  simp

/-- Witness for C10 on the one-point route, cursor past the end of range. -/
theorem completion_tick_frame_witness :
    tick routeOne stateAtLast = { stateAtLast with status := Status.Completed }
    ∧ (tick routeOne stateAtLast).speed = stateAtLast.speed
    ∧ (tick routeOne stateAtLast).elapsedTime = stateAtLast.elapsedTime
    ∧ (tick routeOne stateAtLast).currentPosition = stateAtLast.currentPosition
    ∧ (tick routeOne stateAtLast).activePath = stateAtLast.activePath
    ∧ (tick routeOne stateAtLast).currentIndex = stateAtLast.currentIndex :=
  completion_tick_frame routeOne stateAtLast (by decide)

end MapMotion
